import Mathlib

/-!
Verification development for the tork worker node.

The worker (`handleTask`) and the container runtime (`DockerRuntime.run`,
`DockerRuntime.stop`) are shallowly embedded as pure Lean functions.
External collaborators (the message broker, the Docker client, the clock)
are modelled as oracles passed in via environment records; every call the
source makes to a collaborator is recorded as an event so that ordering
and side-effect claims can be stated over the event trace.
-/

namespace Tork

/-- Modelled from the spec: the task package (github.com/tork/task) is not
under src/.  Lifecycle states follow spec section 3: one of Scheduled,
Running, Completed, Failed. -/
inductive TaskState where
  | Scheduled
  | Running
  | Completed
  | Failed
deriving DecidableEq, Repr

/-- Rendering of a state used by the handler's `%s` format verb in the
rejection message (the exact string is immaterial to the claims). -/
def stateStr : TaskState → String
  | TaskState.Scheduled => "SCHEDULED"
  | TaskState.Running => "RUNNING"
  | TaskState.Completed => "COMPLETED"
  | TaskState.Failed => "FAILED"

/-- Modelled from the spec: the task package is not under src/.  Fields are
those used by `Worker.handleTask` and `DockerRuntime.Run` plus the data
model of spec section 3: identity, execution spec, lifecycle state,
timestamps (each optional), and outcome fields.  Time is modelled as a
`Nat` sample from a monotone clock. -/
structure Task where
  ID : String
  Image : String
  CMD : List String
  Env : List (String × String)
  Memory : Int
  RestartPolicy : String
  State : TaskState
  StartedAt : Option Nat
  CompletedAt : Option Nat
  FailedAt : Option Nat
  Result : String
  Error : String
deriving DecidableEq, Repr

/-- Modelled from the spec: the mq package is not under src/.  The queue
names the worker publishes to: the default work queue and the three status
queues. -/
inductive Queue where
  | QUEUE_DEFAULT
  | QUEUE_STARTED
  | QUEUE_COMPLETED
  | QUEUE_ERROR
deriving DecidableEq, Repr

/-- Observable calls `handleTask` makes to its collaborators, in program
order: a publish of a task snapshot to a queue, and an invocation of
`Runtime.Run` on a task snapshot. -/
inductive WEvent where
  | publish (q : Queue) (t : Task)
  | run (t : Task)
deriving DecidableEq, Repr

/-- Oracle for the worker's collaborators: `publish q t` is the error
returned by `broker.Publish` (`none` = nil error), `run t` is the
result of `runtime.Run` (`Except.error msg` carries `err.Error()`). -/
structure WEnv where
  publish : Queue → Task → Option String
  run : Task → Except String String

/-- The mutation lines 45-47 of src/unnamed/part_000 perform before the
"started" publish: record `StartedAt` and move the state to Running. -/
def startedSnapshot (clock : Nat) (t : Task) : Task :=
  { t with StartedAt := some clock, State := TaskState.Running }

/-- Shallow embedding of `Worker.handleTask` (src/unnamed/part_000 lines
41-66).  `clock` is the value `time.Now()` yields at the first sampling
point; the second sampling (after `runtime.Run` returns) yields
`clock + 1`, so a later sample is strictly larger.  Returns the task as
left by the handler's in-place mutations, the trace of collaborator
calls in program order, and the handler's returned error (`none` = nil). -/
def handleTask (env : WEnv) (clock : Nat) (t : Task) :
    Task × List WEvent × Option String :=
  if t.State ≠ TaskState.Scheduled then
    (t, [], some ("can't start a task in " ++ stateStr t.State ++ " state"))
  else
    let t1 := startedSnapshot clock t
    match env.publish Queue.QUEUE_STARTED t1 with
    | some e => (t1, [WEvent.publish Queue.QUEUE_STARTED t1], some e)
    | none =>
      let finished := clock + 1
      match env.run t1 with
      | Except.error msg =>
        let t2 := { t1 with
          State := TaskState.Failed
          Error := msg
          FailedAt := some finished }
        (t2,
         [WEvent.publish Queue.QUEUE_STARTED t1, WEvent.run t1,
          WEvent.publish Queue.QUEUE_ERROR t2],
         env.publish Queue.QUEUE_ERROR t2)
      | Except.ok result =>
        let t2 := { t1 with
          Result := result
          CompletedAt := some finished
          State := TaskState.Completed }
        (t2,
         [WEvent.publish Queue.QUEUE_STARTED t1, WEvent.run t1,
          WEvent.publish Queue.QUEUE_COMPLETED t2],
         env.publish Queue.QUEUE_COMPLETED t2)

/-- The container runtime's only state visible to the claims: the
concurrency-safe `tasks` map from task ID to container ID
(src/version.go lines 35-39).  The Go map is embedded as a
key-unique association list. -/
structure DockerRuntime where
  tasks : List (String × String)
deriving DecidableEq, Repr

/-- Go map assignment `m[k] = v`: overwrite any existing entry for `k`. -/
def mapInsert (k v : String) (m : List (String × String)) :
    List (String × String) :=
  (k, v) :: m.filter (fun p => p.1 ≠ k)

/-- Go map `delete(m, k)`: remove the entry for `k`, if any. -/
def mapDelete (k : String) (m : List (String × String)) :
    List (String × String) :=
  m.filter (fun p => p.1 ≠ k)

/-- Observable calls `DockerRuntime.run`/`stop` make to the Docker
backend, in program order.  `stopCall` marks an invocation of
`d.Stop` from within `Run` (the cleanup attempt). -/
inductive DEvent where
  | imagePull (image : String)
  | containerCreate (name : String)
  | containerStart (cid : String)
  | containerLogs (cid : String)
  | containerWait (cid : String)
  | stopCall (id : String)
  | containerRemove (cid : String)
deriving DecidableEq, Repr

/-- Resolution of the `select` over `ContainerWait`'s two channels
(src/version.go lines 130-141): either the error channel fires
(possibly with a nil error) or the status channel fires. -/
inductive WaitOutcome where
  | chanErr (e : Option String)
  | chanStatus (code : Int)
deriving DecidableEq, Repr

/-- One frame of the multiplexed stdout/stderr stream `ContainerLogs`
returns for a non-TTY container: a stream id (stderr or stdout) and a
payload of bytes.  The Docker daemon only emits valid stream ids, so
the model fixes the id to stdout/stderr. -/
structure Frame where
  stderr : Bool
  payload : List Nat
deriving DecidableEq, Repr

/-- Big-endian 4-byte encoding of a length, as written in the frame
header by the daemon's stdcopy writer. -/
def be4 (n : Nat) : List Nat :=
  [n / 16777216 % 256, n / 65536 % 256, n / 256 % 256, n % 256]

/-- The 8-byte header plus payload of one multiplexed frame:
stream id byte, three zero bytes, big-endian payload size. -/
def frameBytes (f : Frame) : List Nat :=
  [if f.stderr then 2 else 1, 0, 0, 0] ++ be4 f.payload.length ++ f.payload

/-- The raw multiplexed byte stream delivered by `ContainerLogs`. -/
def serializeFrames (fs : List Frame) : List Nat :=
  (fs.map frameBytes).flatten

/-- Big-endian decoding of a 4-byte frame size. -/
def fromBe4 (b0 b1 b2 b3 : Nat) : Nat :=
  ((b0 * 256 + b1) * 256 + b2) * 256 + b3

/-- `stdcopy.StdCopy(buf, buf, src)` with both destinations the same
buffer: repeatedly read an 8-byte header, then the frame payload, and
append the payload to the output.  EOF at or inside a header, or inside
a frame body, ends the copy with no error and the partial frame
discarded — exactly what happens when the `io.LimitedReader` truncates
the stream.  Stream id bytes are valid by construction of `Frame`, so
the copy never fails in the model. -/
def stdCopyAux : Nat → List Nat → List Nat
  | 0, _ => []
  | Nat.succ fuel, _b0 :: _b1 :: _b2 :: _b3 :: b4 :: b5 :: b6 :: b7 :: rest =>
    let frameSize := fromBe4 b4 b5 b6 b7
    if frameSize ≤ rest.length then
      rest.take frameSize ++ stdCopyAux fuel (rest.drop frameSize)
    else
      []
  | Nat.succ _, _ => []

/-- The copy loop runs until the source is exhausted; each iteration
consumes at least the 8 header bytes, so the source's length bounds the
iteration count and makes an adequate fuel. -/
def stdCopyBytes (l : List Nat) : List Nat :=
  stdCopyAux l.length l

/-- `strings.Builder.String()`: the captured bytes as a Go string (one
character per byte). -/
def bytesToStr (l : List Nat) : String :=
  String.mk (l.map Char.ofNat)

/-- `errors.Wrapf(err, msg)`: the wrapping message followed by the
wrapped error's message. -/
def wrapMsg (m e : String) : String := m ++ ": " ++ e

/-- Oracle for the Docker client: one entry per backend call made by
`Run`/`Stop`.  `pullCopy` is the error from `io.Copy(os.Stdout, reader)`
over the pull progress reader; `containerCreate` yields the new
container's ID; `containerLogs` yields the full multiplexed log stream
as frames (or an open error). -/
structure DEnv where
  imagePull : String → Option String
  pullCopy : String → Option String
  containerCreate : Task → Except String String
  containerStart : String → Option String
  containerLogs : String → Except String (List Frame)
  containerWait : String → WaitOutcome
  containerRemove : String → Option String

/-- Shallow embedding of `DockerRuntime.Stop` (src/version.go lines
150-166): look the task's ID up under the read lock; if untracked,
return nil at once; otherwise delete the entry under the write lock and
then call `ContainerRemove`, returning its error.  Returns the new
runtime state, the backend calls made, and the returned error. -/
def DockerRuntime.stop (env : DEnv) (d : DockerRuntime) (t : Task) :
    DockerRuntime × List DEvent × Option String :=
  match d.tasks.lookup t.ID with
  | none => (d, [], none)
  | some containerID =>
    let d1 : DockerRuntime := ⟨mapDelete t.ID d.tasks⟩
    (d1, [DEvent.containerRemove containerID], env.containerRemove containerID)

/-- Shallow embedding of `DockerRuntime.Run` (src/version.go lines
53-148): pull the image (and drain the progress reader), create the
container named after the task's ID, record the ID pair in the tasks
map, start the container, read at most 1024 bytes of the multiplexed
log stream through `stdcopy` into the buffer, wait for termination,
and — only when the wait did not yield a non-nil channel error — attempt
cleanup via `stop`, whose failure is logged and ignored.  Returns the
new runtime state, the trace of backend calls, and `(result, error)`
as `Except`. -/
def DockerRuntime.run (env : DEnv) (d : DockerRuntime) (t : Task) :
    DockerRuntime × List DEvent × Except String String :=
  match env.imagePull t.Image with
  | some e => (d, [DEvent.imagePull t.Image], Except.error e)
  | none =>
    match env.pullCopy t.Image with
    | some e => (d, [DEvent.imagePull t.Image], Except.error e)
    | none =>
      match env.containerCreate t with
      | Except.error e =>
        (d, [DEvent.imagePull t.Image, DEvent.containerCreate t.ID],
         Except.error e)
      | Except.ok cid =>
        let d1 : DockerRuntime := ⟨mapInsert t.ID cid d.tasks⟩
        let tr0 := [DEvent.imagePull t.Image, DEvent.containerCreate t.ID]
        match env.containerStart cid with
        | some e =>
          (d1, tr0 ++ [DEvent.containerStart cid],
           Except.error (wrapMsg ("error starting container " ++ cid) e))
        | none =>
          match env.containerLogs cid with
          | Except.error e =>
            (d1, tr0 ++ [DEvent.containerStart cid, DEvent.containerLogs cid],
             Except.error (wrapMsg ("error getting logs for container " ++ cid) e))
          | Except.ok frames =>
            let captured := stdCopyBytes ((serializeFrames frames).take 1024)
            let tr1 := tr0 ++ [DEvent.containerStart cid,
                               DEvent.containerLogs cid,
                               DEvent.containerWait cid]
            match env.containerWait cid with
            | WaitOutcome.chanErr (some e) => (d1, tr1, Except.error e)
            | WaitOutcome.chanErr none =>
              let s := DockerRuntime.stop env d1 t
              (s.1, tr1 ++ DEvent.stopCall t.ID :: s.2.1,
               Except.ok (bytesToStr captured))
            | WaitOutcome.chanStatus _ =>
              let s := DockerRuntime.stop env d1 t
              (s.1, tr1 ++ DEvent.stopCall t.ID :: s.2.1,
               Except.ok (bytesToStr captured))

/-! ### Trace observation helpers -/

/-- Does an event record an invocation of `Runtime.Run`? -/
def isRunEvent : WEvent → Bool
  | WEvent.run _ => true
  | WEvent.publish _ _ => false

/-- Classification of worker events for ordering statements: the
"started" publish, the `Runtime.Run` invocation, a terminal publish
(to the "completed" or "error" queue), or any other publish. -/
inductive EvClass where
  | startedPub
  | runInvoke
  | terminalPub
  | otherPub
deriving DecidableEq, Repr

def classify : WEvent → EvClass
  | WEvent.publish Queue.QUEUE_STARTED _ => EvClass.startedPub
  | WEvent.publish Queue.QUEUE_COMPLETED _ => EvClass.terminalPub
  | WEvent.publish Queue.QUEUE_ERROR _ => EvClass.terminalPub
  | WEvent.publish Queue.QUEUE_DEFAULT _ => EvClass.otherPub
  | WEvent.run _ => EvClass.runInvoke

/-- The non-nil error carried by the wait select's error channel, if
that is how the select resolved. -/
def waitChanError : WaitOutcome → Option String
  | WaitOutcome.chanErr (some e) => some e
  | WaitOutcome.chanErr none => none
  | WaitOutcome.chanStatus _ => none

/-! ### Concrete fixtures used by the witnesses -/

def schedTask : Task where
  ID := "t1"
  Image := "alpine"
  CMD := ["echo", "hi"]
  Env := []
  Memory := 0
  RestartPolicy := ""
  State := TaskState.Scheduled
  StartedAt := none
  CompletedAt := none
  FailedAt := none
  Result := ""
  Error := ""

def runningTask : Task :=
  { schedTask with State := TaskState.Running }

def wenvOk : WEnv where
  publish := fun _ _ => none
  run := fun _ => Except.ok "hi\n"

def wenvPubFail : WEnv where
  publish := fun _ _ => some "broker down"
  run := fun _ => Except.ok "hi\n"

def wenvRunFail : WEnv where
  publish := fun _ _ => none
  run := fun _ => Except.error "exit status 1"

/-- The bytes of "hi\n" as one stdout frame. -/
def hiFrame : Frame where
  stderr := false
  payload := [104, 105, 10]

def denvOk : DEnv where
  imagePull := fun _ => none
  pullCopy := fun _ => none
  containerCreate := fun t => Except.ok ("c-" ++ t.ID)
  containerStart := fun _ => none
  containerLogs := fun _ => Except.ok [hiFrame]
  containerWait := fun _ => WaitOutcome.chanStatus 0
  containerRemove := fun _ => none

def denvWaitErr : DEnv :=
  { denvOk with containerWait := fun _ => WaitOutcome.chanErr (some "wait failed") }

def denvRemoveFail : DEnv :=
  { denvOk with containerRemove := fun _ => some "remove failed" }

/-- A workload emitting one megabyte of output on stdout. -/
def bigFrame : Frame where
  stderr := false
  payload := List.replicate 1048576 104

def denvBig : DEnv :=
  { denvOk with containerLogs := fun _ => Except.ok [bigFrame] }

def emptyRuntime : DockerRuntime := ⟨[]⟩

/-- A runtime already tracking container "c-t1" for task "t1". -/
def oneRuntime : DockerRuntime := ⟨[("t1", "c-t1")]⟩

end Tork

namespace Tork

/-! ### Helper lemmas -/

theorem lookup_mapInsert (k v : String) (m : List (String × String)) :
    (mapInsert k v m).lookup k = some v := by
  simp [mapInsert, List.lookup]

theorem lookup_mapDelete (k : String) (m : List (String × String)) :
    (mapDelete k m).lookup k = none := by
  induction m with
  | nil => rfl
  | cons p rest ih =>
    obtain ⟨pk, pv⟩ := p
    by_cases hp : pk = k
    · have h1 : mapDelete k ((pk, pv) :: rest) = mapDelete k rest := by
        simp [mapDelete, hp]
      rw [h1]
      exact ih
    · have h1 : mapDelete k ((pk, pv) :: rest) = (pk, pv) :: mapDelete k rest := by
        simp [mapDelete, hp]
      have h2 : (k == pk) = false := by
        simp
        exact Ne.symm hp
      rw [h1]
      simp only [List.lookup, h2]
      exact ih

theorem stdCopyAux_length_le (fuel : Nat) (l : List Nat) :
    (stdCopyAux fuel l).length ≤ l.length := by
  induction fuel generalizing l with
  | zero => simp [stdCopyAux]
  | succ fuel ih =>
    rcases l with _ | ⟨b0, _ | ⟨b1, _ | ⟨b2, _ | ⟨b3, _ | ⟨b4, _ | ⟨b5,
      _ | ⟨b6, _ | ⟨b7, rest⟩⟩⟩⟩⟩⟩⟩⟩
    · simp [stdCopyAux]
    · simp [stdCopyAux]
    · simp [stdCopyAux]
    · simp [stdCopyAux]
    · simp [stdCopyAux]
    · simp [stdCopyAux]
    · simp [stdCopyAux]
    · simp [stdCopyAux]
    · by_cases hfs : fromBe4 b4 b5 b6 b7 ≤ rest.length
      · have hrec := ih (rest.drop (fromBe4 b4 b5 b6 b7))
        simp only [stdCopyAux, hfs, if_true, List.length_append,
          List.length_take, List.length_drop, List.length_cons] at hrec ⊢
        omega
      · simp [stdCopyAux, hfs]

theorem stdCopyBytes_length_le (l : List Nat) :
    (stdCopyBytes l).length ≤ l.length :=
  stdCopyAux_length_le l.length l

theorem bytesToStr_length (l : List Nat) :
    (bytesToStr l).length = l.length := by
  simp [bytesToStr, String.length]

/-! ### Claim theorems -/

/-- C1: for every task whose State is not Scheduled, `handleTask` returns
the invalid-state error and performs no side effects: the trace is empty
(no `Runtime.Run` invocation, no publish to any queue) and the returned
task is the input task with every field unchanged. -/
theorem handleTask_rejects_nonscheduled (env : WEnv) (clock : Nat) (t : Task)
    (h : t.State ≠ TaskState.Scheduled) :
    handleTask env clock t =
      (t, [], some ("can't start a task in " ++ stateStr t.State ++ " state")) := by
  simp [handleTask, h]

theorem handleTask_rejects_nonscheduled_witness :
    handleTask wenvOk 0 runningTask =
      (runningTask, [],
       some ("can't start a task in " ++ stateStr runningTask.State ++ " state")) :=
  handleTask_rejects_nonscheduled wenvOk 0 runningTask (by decide)

/-- C2: for every Scheduled task whose "started" publish fails,
`handleTask` returns that publish error verbatim and the trace contains
no `Runtime.Run` invocation. -/
theorem handleTask_started_publish_error (env : WEnv) (clock : Nat) (t : Task)
    (e : String) (hs : t.State = TaskState.Scheduled)
    (hp : env.publish Queue.QUEUE_STARTED (startedSnapshot clock t) = some e) :
    (handleTask env clock t).2.2 = some e ∧
    ((handleTask env clock t).2.1).countP isRunEvent = 0 := by
  simp [handleTask, hs, hp, isRunEvent]

theorem handleTask_started_publish_error_witness :
    (handleTask wenvPubFail 0 schedTask).2.2 = some "broker down" ∧
    ((handleTask wenvPubFail 0 schedTask).2.1).countP isRunEvent = 0 :=
  handleTask_started_publish_error wenvPubFail 0 schedTask "broker down" rfl rfl

/-- C9: when the "started" publish fails the handler returns the error,
but the task has already been mutated: the returned task is exactly the
input with State set to Running and StartedAt set to the clock sample
taken before the publish attempt — the mutations are not rolled back,
and one publish was attempted, so the no-side-effects guarantee of the
InvalidTaskState rejection does not extend to this path. -/
theorem handleTask_publish_fail_mutations_persist (env : WEnv) (clock : Nat)
    (t : Task) (e : String) (hs : t.State = TaskState.Scheduled)
    (hp : env.publish Queue.QUEUE_STARTED (startedSnapshot clock t) = some e) :
    handleTask env clock t =
      (startedSnapshot clock t,
       [WEvent.publish Queue.QUEUE_STARTED (startedSnapshot clock t)],
       some e) := by
  simp [handleTask, hs, hp]

theorem handleTask_publish_fail_mutations_persist_witness :
    handleTask wenvPubFail 0 schedTask =
      (startedSnapshot 0 schedTask,
       [WEvent.publish Queue.QUEUE_STARTED (startedSnapshot 0 schedTask)],
       some "broker down") :=
  handleTask_publish_fail_mutations_persist wenvPubFail 0 schedTask
    "broker down" rfl rfl

/-- C3: for every Scheduled task whose "started" publish succeeds and
whose `Runtime.Run` returns an error, the handler sets State = Failed,
Error to the runtime error's message, and FailedAt to the clock sample
`clock + 1` drawn after Run returned (strictly later than the StartedAt
sample `clock`); it publishes the failed task to the "error" queue and
returns exactly that publish call's error — in particular no error when
that publish succeeds. -/
theorem handleTask_runtime_error (env : WEnv) (clock : Nat) (t : Task)
    (msg : String) (hs : t.State = TaskState.Scheduled)
    (hp : env.publish Queue.QUEUE_STARTED (startedSnapshot clock t) = none)
    (hr : env.run (startedSnapshot clock t) = Except.error msg) :
    handleTask env clock t =
      ({ startedSnapshot clock t with
          State := TaskState.Failed
          Error := msg
          FailedAt := some (clock + 1) },
       [WEvent.publish Queue.QUEUE_STARTED (startedSnapshot clock t),
        WEvent.run (startedSnapshot clock t),
        WEvent.publish Queue.QUEUE_ERROR
          { startedSnapshot clock t with
              State := TaskState.Failed
              Error := msg
              FailedAt := some (clock + 1) }],
       env.publish Queue.QUEUE_ERROR
         { startedSnapshot clock t with
            State := TaskState.Failed
            Error := msg
            FailedAt := some (clock + 1) }) := by
  simp [handleTask, hs, hp, hr]

theorem handleTask_runtime_error_witness :
    handleTask wenvRunFail 0 schedTask =
      ({ startedSnapshot 0 schedTask with
          State := TaskState.Failed
          Error := "exit status 1"
          FailedAt := some 1 },
       [WEvent.publish Queue.QUEUE_STARTED (startedSnapshot 0 schedTask),
        WEvent.run (startedSnapshot 0 schedTask),
        WEvent.publish Queue.QUEUE_ERROR
          { startedSnapshot 0 schedTask with
              State := TaskState.Failed
              Error := "exit status 1"
              FailedAt := some 1 }],
       none) :=
  handleTask_runtime_error wenvRunFail 0 schedTask "exit status 1" rfl rfl rfl

/-- C4: for every Scheduled task whose "started" publish succeeds and
whose `Runtime.Run` returns a result without error, the handler sets
Result to that result, CompletedAt to the clock sample `clock + 1`
drawn after Run returned, and State = Completed; it publishes the task
to the "completed" queue and returns to its caller exactly what that
publish call returns. -/
theorem handleTask_runtime_success (env : WEnv) (clock : Nat) (t : Task)
    (res : String) (hs : t.State = TaskState.Scheduled)
    (hp : env.publish Queue.QUEUE_STARTED (startedSnapshot clock t) = none)
    (hr : env.run (startedSnapshot clock t) = Except.ok res) :
    handleTask env clock t =
      ({ startedSnapshot clock t with
          Result := res
          CompletedAt := some (clock + 1)
          State := TaskState.Completed },
       [WEvent.publish Queue.QUEUE_STARTED (startedSnapshot clock t),
        WEvent.run (startedSnapshot clock t),
        WEvent.publish Queue.QUEUE_COMPLETED
          { startedSnapshot clock t with
              Result := res
              CompletedAt := some (clock + 1)
              State := TaskState.Completed }],
       env.publish Queue.QUEUE_COMPLETED
         { startedSnapshot clock t with
            Result := res
            CompletedAt := some (clock + 1)
            State := TaskState.Completed }) := by
  simp [handleTask, hs, hp, hr]

theorem handleTask_runtime_success_witness :
    handleTask wenvOk 0 schedTask =
      ({ startedSnapshot 0 schedTask with
          Result := "hi\n"
          CompletedAt := some 1
          State := TaskState.Completed },
       [WEvent.publish Queue.QUEUE_STARTED (startedSnapshot 0 schedTask),
        WEvent.run (startedSnapshot 0 schedTask),
        WEvent.publish Queue.QUEUE_COMPLETED
          { startedSnapshot 0 schedTask with
              Result := "hi\n"
              CompletedAt := some 1
              State := TaskState.Completed }],
       none) :=
  handleTask_runtime_success wenvOk 0 schedTask "hi\n" rfl rfl rfl

/-- C8: for every task instance the handler accepts and whose "started"
publish succeeds, the event trace classifies as exactly [started
publish, Run invocation, terminal publish]: the "started" notification
is published strictly before `Runtime.Run` is invoked, and after Run
returns exactly one terminal publish — to the "completed" or the
"error" queue — is performed, never zero and never two. -/
theorem handleTask_event_ordering (env : WEnv) (clock : Nat) (t : Task)
    (hs : t.State = TaskState.Scheduled)
    (hp : env.publish Queue.QUEUE_STARTED (startedSnapshot clock t) = none) :
    ((handleTask env clock t).2.1).map classify =
      [EvClass.startedPub, EvClass.runInvoke, EvClass.terminalPub] := by
  cases hr : env.run (startedSnapshot clock t) with
  | error msg => simp [handleTask, hs, hp, hr, classify]
  | ok res => simp [handleTask, hs, hp, hr, classify]

theorem handleTask_event_ordering_witness :
    ((handleTask wenvOk 0 schedTask).2.1).map classify =
      [EvClass.startedPub, EvClass.runInvoke, EvClass.terminalPub] :=
  handleTask_event_ordering wenvOk 0 schedTask rfl rfl

/-- A successful `run` leaves no tracking entry for the task's ID: the
success path inserts the entry and then reaches the cleanup stop, which
deletes it. -/
theorem run_ok_lookup (env : DEnv) (d : DockerRuntime) (t : Task) (s : String)
    (h : (DockerRuntime.run env d t).2.2 = Except.ok s) :
    ((DockerRuntime.run env d t).1).tasks.lookup t.ID = none := by
  cases hpull : env.imagePull t.Image with
  | some e => simp [DockerRuntime.run, hpull] at h
  | none =>
    cases hcopy : env.pullCopy t.Image with
    | some e => simp [DockerRuntime.run, hpull, hcopy] at h
    | none =>
      cases hcreate : env.containerCreate t with
      | error e => simp [DockerRuntime.run, hpull, hcopy, hcreate] at h
      | ok cid =>
        cases hstart : env.containerStart cid with
        | some e => simp [DockerRuntime.run, hpull, hcopy, hcreate, hstart] at h
        | none =>
          cases hlogs : env.containerLogs cid with
          | error e =>
            simp [DockerRuntime.run, hpull, hcopy, hcreate, hstart, hlogs] at h
          | ok frames =>
            cases hwait : env.containerWait cid with
            | chanErr oe =>
              cases oe with
              | some e =>
                simp [DockerRuntime.run, hpull, hcopy, hcreate, hstart, hlogs,
                  hwait] at h
              | none =>
                simp [DockerRuntime.run, DockerRuntime.stop, hpull, hcopy,
                  hcreate, hstart, hlogs, hwait, lookup_mapInsert,
                  lookup_mapDelete]
            | chanStatus code =>
              simp [DockerRuntime.run, DockerRuntime.stop, hpull, hcopy,
                hcreate, hstart, hlogs, hwait, lookup_mapInsert,
                lookup_mapDelete]

/-- C6: `Stop` is idempotent — on an untracked ID it performs no backend
removal call (empty trace) and returns no error, leaving the runtime
unchanged; and after a completed (successful) `run` followed by a
`stop`, a lookup of the task's ID in the tracking table finds
nothing. -/
theorem stop_idempotent (env : DEnv) (d : DockerRuntime) (t : Task)
    (s : String) :
    (d.tasks.lookup t.ID = none → DockerRuntime.stop env d t = (d, [], none)) ∧
    ((DockerRuntime.run env d t).2.2 = Except.ok s →
      ((DockerRuntime.stop env (DockerRuntime.run env d t).1 t).1).tasks.lookup
        t.ID = none) := by
  constructor
  · intro h
    simp [DockerRuntime.stop, h]
  · intro h
    have h1 := run_ok_lookup env d t s h
    simp [DockerRuntime.stop, h1]

theorem stop_idempotent_witness :
    DockerRuntime.stop denvOk emptyRuntime schedTask = (emptyRuntime, [], none) ∧
    ((DockerRuntime.stop denvOk (DockerRuntime.run denvOk emptyRuntime
        schedTask).1 schedTask).1).tasks.lookup schedTask.ID = none := by
  have h := stop_idempotent denvOk emptyRuntime schedTask
    (bytesToStr (stdCopyBytes ((serializeFrames [hiFrame]).take 1024)))
  exact ⟨h.1 rfl, h.2 rfl⟩

/-- C10: `Stop` deletes the ID's entry from the tracking table before
invoking the backend removal: on a tracked ID it returns exactly the
removal call's outcome (failure included) with the entry already
deleted, the ID is no longer tracked afterwards, and a subsequent
`Stop` for the same ID is a no-op returning no error and never retrying
the removal. -/
theorem stop_deletes_before_remove (env : DEnv) (d : DockerRuntime) (t : Task)
    (cid : String) (h : d.tasks.lookup t.ID = some cid) :
    DockerRuntime.stop env d t =
      (⟨mapDelete t.ID d.tasks⟩, [DEvent.containerRemove cid],
       env.containerRemove cid) ∧
    (mapDelete t.ID d.tasks).lookup t.ID = none ∧
    DockerRuntime.stop env ⟨mapDelete t.ID d.tasks⟩ t =
      (⟨mapDelete t.ID d.tasks⟩, [], none) := by
  refine ⟨?_, lookup_mapDelete t.ID d.tasks, ?_⟩
  · simp [DockerRuntime.stop, h]
  · simp [DockerRuntime.stop, lookup_mapDelete]

theorem stop_deletes_before_remove_witness :
    DockerRuntime.stop denvRemoveFail oneRuntime schedTask =
      (⟨mapDelete schedTask.ID oneRuntime.tasks⟩,
       [DEvent.containerRemove "c-t1"], some "remove failed") ∧
    (mapDelete schedTask.ID oneRuntime.tasks).lookup schedTask.ID = none ∧
    DockerRuntime.stop denvRemoveFail ⟨mapDelete schedTask.ID oneRuntime.tasks⟩
        schedTask =
      (⟨mapDelete schedTask.ID oneRuntime.tasks⟩, [], none) :=
  stop_deletes_before_remove denvRemoveFail oneRuntime schedTask "c-t1" rfl

/-- C7: on the success path the result string is the output of the
1024-byte-limited read of the multiplexed log stream, and its length
never exceeds 1024 bytes, for every workload `frames` no matter how
many bytes it produces; the excess is discarded and `run` still returns
without error.  `env.containerRemove` is unconstrained, so this also
holds when cleanup fails. -/
theorem run_output_bounded (env : DEnv) (d : DockerRuntime) (t : Task)
    (cid : String) (frames : List Frame)
    (hpull : env.imagePull t.Image = none)
    (hcopy : env.pullCopy t.Image = none)
    (hcreate : env.containerCreate t = Except.ok cid)
    (hstart : env.containerStart cid = none)
    (hlogs : env.containerLogs cid = Except.ok frames)
    (hwait : waitChanError (env.containerWait cid) = none) :
    (DockerRuntime.run env d t).2.2 =
      Except.ok (bytesToStr (stdCopyBytes ((serializeFrames frames).take 1024))) ∧
    (bytesToStr (stdCopyBytes ((serializeFrames frames).take 1024))).length
      ≤ 1024 := by
  constructor
  · cases hw : env.containerWait cid with
    | chanErr oe =>
      cases oe with
      | some e =>
        rw [hw] at hwait
        simp [waitChanError] at hwait
      | none =>
        simp [DockerRuntime.run, hpull, hcopy, hcreate, hstart, hlogs, hw]
    | chanStatus code =>
      simp [DockerRuntime.run, hpull, hcopy, hcreate, hstart, hlogs, hw]
  · calc (bytesToStr (stdCopyBytes ((serializeFrames frames).take 1024))).length
        = (stdCopyBytes ((serializeFrames frames).take 1024)).length :=
          bytesToStr_length _
      _ ≤ ((serializeFrames frames).take 1024).length :=
          stdCopyBytes_length_le _
      _ ≤ 1024 := by
          rw [List.length_take]
          exact Nat.min_le_left _ _

theorem run_output_bounded_witness :
    (DockerRuntime.run denvBig emptyRuntime schedTask).2.2 =
      Except.ok (bytesToStr (stdCopyBytes
        ((serializeFrames [bigFrame]).take 1024))) ∧
    (bytesToStr (stdCopyBytes ((serializeFrames [bigFrame]).take 1024))).length
      ≤ 1024 :=
  run_output_bounded denvBig emptyRuntime schedTask "c-t1" [bigFrame]
    rfl rfl rfl rfl rfl rfl

/-- C5 counterexample: with a backend whose wait error channel yields the
non-nil error "wait failed", `run` performs the wait (the containerWait
call is last in the trace) and then returns that error at once: no stop
call and no container removal appears in the trace, so cleanup is not
attempted on this resolution of the wait step — refuting "cleanup is
always attempted regardless of whether the wait yielded an error or a
normal status event". -/
theorem run_wait_error_skips_cleanup :
    DockerRuntime.run denvWaitErr emptyRuntime schedTask =
      (⟨[("t1", "c-t1")]⟩,
       [DEvent.imagePull "alpine", DEvent.containerCreate "t1",
        DEvent.containerStart "c-t1", DEvent.containerLogs "c-t1",
        DEvent.containerWait "c-t1"],
       Except.error "wait failed") ∧
    DEvent.stopCall "t1" ∉
      (DockerRuntime.run denvWaitErr emptyRuntime schedTask).2.1 ∧
    DEvent.containerRemove "c-t1" ∉
      (DockerRuntime.run denvWaitErr emptyRuntime schedTask).2.1 :=
  ⟨rfl, by decide, by decide⟩

/-- C5 (amended): after the wait step resolves with a normal status event
or with a nil error from the error channel, cleanup (the stop call) is
always attempted — it is recorded in the trace — and the cleanup
outcome never changes `run`'s returned result: the result is the
captured output even though `env.containerRemove` is unconstrained and
may fail.  (When the error channel yields a non-nil error, `run`
returns it without attempting cleanup.) -/
theorem run_cleanup_after_normal_wait (env : DEnv) (d : DockerRuntime)
    (t : Task) (cid : String) (frames : List Frame)
    (hpull : env.imagePull t.Image = none)
    (hcopy : env.pullCopy t.Image = none)
    (hcreate : env.containerCreate t = Except.ok cid)
    (hstart : env.containerStart cid = none)
    (hlogs : env.containerLogs cid = Except.ok frames)
    (hwait : waitChanError (env.containerWait cid) = none) :
    DEvent.stopCall t.ID ∈ (DockerRuntime.run env d t).2.1 ∧
    (DockerRuntime.run env d t).2.2 =
      Except.ok (bytesToStr (stdCopyBytes
        ((serializeFrames frames).take 1024))) := by
  cases hw : env.containerWait cid with
  | chanErr oe =>
    cases oe with
    | some e =>
      rw [hw] at hwait
      simp [waitChanError] at hwait
    | none =>
      constructor
      · simp [DockerRuntime.run, hpull, hcopy, hcreate, hstart, hlogs, hw]
      · simp [DockerRuntime.run, hpull, hcopy, hcreate, hstart, hlogs, hw]
  | chanStatus code =>
    constructor
    · simp [DockerRuntime.run, hpull, hcopy, hcreate, hstart, hlogs, hw]
    · simp [DockerRuntime.run, hpull, hcopy, hcreate, hstart, hlogs, hw]

theorem run_cleanup_after_normal_wait_witness :
    DEvent.stopCall schedTask.ID ∈
      (DockerRuntime.run denvRemoveFail emptyRuntime schedTask).2.1 ∧
    (DockerRuntime.run denvRemoveFail emptyRuntime schedTask).2.2 =
      Except.ok (bytesToStr (stdCopyBytes
        ((serializeFrames [hiFrame]).take 1024))) :=
  run_cleanup_after_normal_wait denvRemoveFail emptyRuntime schedTask "c-t1"
    [hiFrame] rfl rfl rfl rfl rfl rfl

end Tork
